import Mathlib

/-!
Verification of the react-hooks-core browser hooks.

Shallow embedding of the hooks' data model and lifecycle:
  * `useNetworkSpeed` (src/unnamed/part_002): connection-quality monitor.
  * `useBattery` (src/src/browser/hooks/useBattery.ts): battery monitor.
  * `useIdle`, `useGeolocation`, device classifier: their implementation
    files are not in the sources, so they are modelled from the spec.

JavaScript values that matter to these hooks (typeof checks, falsy
collapse via `||`, the `Infinity` sentinel) are embedded explicitly.
-/

/-- Extended number: a rational or the JavaScript `Infinity` sentinel. -/
inductive ENum where
  | fin (q : Rat)
  | inf
deriving DecidableEq, Repr

/-- A JavaScript value as far as the hooks inspect one: `typeof` tags. -/
inductive JSVal where
  | undef
  | jsNull
  | jsBool (b : Bool)
  | jsNum (x : ENum)
  | jsStr (s : String)
deriving DecidableEq, Repr

/-- The platform connection-information object, fields possibly absent
(`conn.effectiveType` etc. may be `undefined`). -/
structure JSConnection where
  effectiveType : Option String
  downlink : Option ENum
  rtt : Option ENum
  saveData : Option Bool
deriving DecidableEq, Repr

/-- Structure `NetworkSpeedInfo` from the interface file: the snapshot published by
`useNetworkSpeed`. -/
structure NetworkSpeedInfo where
  effectiveType : String
  downlink : ENum
  rtt : ENum
  saveData : Bool
deriving DecidableEq, Repr

/-- The safe default `useNetworkSpeed` publishes when the platform feature
is unavailable (part_002 lines 15-20). -/
def netDefault : NetworkSpeedInfo :=
  { effectiveType := "unknown", downlink := .fin 0, rtt := .fin 0, saveData := false }

/-- Reading the full snapshot from the connection object, exactly as
`handleChange` does (part_002 lines 64-69): `conn.effectiveType || 'unknown'`,
`conn.downlink || 0`, `conn.rtt || 0`, `conn.saveData || false`.  The `||`
falsy collapse maps an absent or empty-string type to "unknown"; for the
numeric fields `0 || 0 = 0` so absence is the only effective case. -/
def readConn (c : JSConnection) : NetworkSpeedInfo :=
  { effectiveType :=
      match c.effectiveType with
      | some s => if s = "" then "unknown" else s
      | none => "unknown",
    downlink := c.downlink.getD (.fin 0),
    rtt := c.rtt.getD (.fin 0),
    saveData := c.saveData.getD false }

/-- Per-activation state of the `useNetworkSpeed` hook: the snapshot held
in `useState`, the current `onChangeRef.current` (callbacks identified by
`Nat` ids), and the log of callback invocations with their payloads. -/
structure NetHookState where
  published : NetworkSpeedInfo
  cbRef : Option Nat
  cbLog : List (Nat × NetworkSpeedInfo)
deriving DecidableEq, Repr

/-- One platform `change` notification: `handleChange` (part_002 lines
63-73) builds `newInfo` from the four fields of `conn`, calls
`setNetworkInfo(newInfo)` and then `onChangeRef.current?.(newInfo)`. -/
def netNotify (conn : JSConnection) (s : NetHookState) : NetHookState :=
  let newInfo := readConn conn
  { published := newInfo,
    cbRef := s.cbRef,
    cbLog := s.cbLog ++ (s.cbRef.map (fun cb => (cb, newInfo))).toList }

/-- Render/notification events driving a `useNetworkSpeed` activation:
a re-render refreshes `onChangeRef.current` (part_002 lines 46-48),
a platform notification runs `handleChange`. -/
inductive NetEvent where
  | render (cb : Option Nat)
  | notify
deriving DecidableEq, Repr

/-- Step of the network hook on one event. -/
def netStep (conn : JSConnection) (s : NetHookState) : NetEvent → NetHookState
  | .render cb => { s with cbRef := cb }
  | .notify => netNotify conn s

/-- C1: a change notification publishes the snapshot re-read wholesale from
the connection object — every one of the four fields comes from `conn`,
none from the previous snapshot — and the optional callback is invoked
exactly once with exactly that snapshot (zero times when absent). -/
theorem netNotify_atomic_single_callback (conn : JSConnection) (s : NetHookState) :
    (netNotify conn s).published = readConn conn ∧
    (netNotify conn s).published.effectiveType = (readConn conn).effectiveType ∧
    (netNotify conn s).published.downlink = (readConn conn).downlink ∧
    (netNotify conn s).published.rtt = (readConn conn).rtt ∧
    (netNotify conn s).published.saveData = (readConn conn).saveData ∧
    (netNotify conn s).cbLog =
      s.cbLog ++ (s.cbRef.map (fun cb => (cb, (netNotify conn s).published))).toList := by
  refine ⟨rfl, rfl, rfl, rfl, rfl, ?_⟩
  simp [netNotify]

/-- The platform battery object as `updateBatteryStatus` inspects it:
each field is an arbitrary JavaScript value checked with `typeof`
(useBattery.ts lines 40-43). -/
structure JSBattery where
  level : JSVal
  charging : JSVal
  chargingTime : JSVal
  dischargingTime : JSVal
deriving DecidableEq, Repr

/-- Structure `BatteryStatus` from the interface file. -/
structure BatteryStatus where
  level : ENum
  charging : Bool
  chargingTime : ENum
  dischargingTime : ENum
  supported : Bool
deriving DecidableEq, Repr

/-- The unsupported-feature default (useBattery.ts lines 13-19 and 89-95). -/
def defaultBatteryStatus : BatteryStatus :=
  { level := .fin 1, charging := false, chargingTime := .inf,
    dischargingTime := .inf, supported := false }

/-- The `newStatus` value as `updateBatteryStatus` builds it (useBattery.ts lines
39-45): each field is taken from the battery object when its `typeof`
matches, otherwise the per-field default; `supported` is always true. -/
def readBattery (b : JSBattery) : BatteryStatus :=
  { level := match b.level with | .jsNum x => x | _ => .fin 1,
    charging := match b.charging with | .jsBool c => c | _ => false,
    chargingTime := match b.chargingTime with | .jsNum x => x | _ => .inf,
    dischargingTime := match b.dischargingTime with | .jsNum x => x | _ => .inf,
    supported := true }

/-- The four battery event names subscribed to (useBattery.ts lines 74-77). -/
def batteryEventNames : List String :=
  ["levelchange", "chargingchange", "chargingtimechange", "dischargingtimechange"]

/-- Per-activation state of the `useBattery` hook: the `mounted` flag, the
`useState` snapshot, `onChangeRef.current`, the callback-invocation log,
`batteryRef.current`, the listeners currently registered on the battery
object, and the cleanup list the `initBattery` promise resolved to
(`none` while pending or when `initBattery` returned `undefined`). -/
structure BatHookState where
  mounted : Bool
  published : BatteryStatus
  cbRef : Option Nat
  cbLog : List (Nat × BatteryStatus)
  batteryRef : Option JSBattery
  listeners : List String
  cleanupL : Option (List String)
deriving DecidableEq, Repr

/-- Function `updateBatteryStatus` (useBattery.ts lines 36-49): returns unchanged
when `!mounted || !battery`; otherwise builds `newStatus`, publishes it
and invokes `onChangeRef.current` with it. -/
def updateBatteryStatus (b : Option JSBattery) (s : BatHookState) : BatHookState :=
  if !s.mounted || b.isNone then s
  else
    match b with
    | none => s
    | some bat =>
      let newStatus := readBattery bat
      { s with published := newStatus,
               cbLog := s.cbLog ++ (s.cbRef.map (fun cb => (cb, newStatus))).toList }

/-- Outcome of awaiting `navigator.getBattery()`: the promise rejected (or
the resolved value failed the `!battery || typeof battery !== 'object'`
validation, which throws into the same catch), or it resolved to a
battery object. -/
inductive GetBatteryResult where
  | rejected
  | resolved (b : JSBattery)
deriving DecidableEq, Repr

/-- The try-block of `initBattery` (useBattery.ts lines 52-85), as a
fallible computation: `.error` is a thrown exception reaching the catch.
On a resolved battery it stores `batteryRef`, returns `undefined` if no
longer mounted (before any listener registration or publish), else
publishes the initial status, registers the four listeners and returns
the cleanup that removes them. -/
def initBatteryTry (r : GetBatteryResult) (s : BatHookState) :
    Except String BatHookState :=
  match r with
  | .rejected => .error "Invalid battery object"
  | .resolved b =>
    let s1 := { s with batteryRef := some b }
    if !s1.mounted then .ok { s1 with cleanupL := none }
    else
      let s2 := updateBatteryStatus (some b) s1
      .ok { s2 with listeners := s2.listeners ++ batteryEventNames,
                    cleanupL := some batteryEventNames }

/-- The catch-block of `initBattery` (useBattery.ts lines 86-98): the
exception is logged and, if still mounted, the unsupported default is
published (no callback); `undefined` is returned as the cleanup. -/
def initBatteryCatch (s : BatHookState) : BatHookState :=
  { s with published := if s.mounted then defaultBatteryStatus else s.published,
           cleanupL := none }

/-- Function `initBattery` as a whole: the try-block with every exception handled
by the catch-block, so the computation is total. -/
def initBattery (r : GetBatteryResult) (s : BatHookState) : BatHookState :=
  match initBatteryTry r s with
  | .ok s' => s'
  | .error _ => initBatteryCatch s

/-- Calling `removeEventListener` for each name in `names`: removes one
registration per call. -/
def removeListeners (ls : List String) (names : List String) : List String :=
  names.foldl (fun acc n => acc.erase n) ls

/-- Events driving a `useBattery` activation: a re-render refreshing
`onChangeRef.current` (lines 24-26), the `getBattery` promise settling,
one of the four battery events firing (each handler calls
`updateBatteryStatus(battery)`), and the effect cleanup (lines 103-106:
set `mounted = false`, then run the cleanup the promise resolved to). -/
inductive BatEvent where
  | render (cb : Option Nat)
  | resolve (r : GetBatteryResult)
  | change (b : Option JSBattery)
  | teardown
deriving DecidableEq, Repr

/-- Step of the battery hook on one event. -/
def batStep (s : BatHookState) : BatEvent → BatHookState
  | .render cb => { s with cbRef := cb }
  | .resolve r => initBattery r s
  | .change b => updateBatteryStatus b s
  | .teardown =>
    let s1 := { s with mounted := false }
    match s1.cleanupL with
    | none => s1
    | some names => { s1 with listeners := removeListeners s1.listeners names,
                              cleanupL := none }

/-- Fresh activation state of the battery hook: mounted, default snapshot,
the mount-time callback, nothing subscribed yet. -/
def batInitState (cb : Option Nat) : BatHookState :=
  { mounted := true, published := defaultBatteryStatus, cbRef := cb,
    cbLog := [], batteryRef := none, listeners := [], cleanupL := none }

/-- C2: once the activation is logically cancelled (`mounted = false`), a
late battery event publishes nothing and invokes no callback, and a late
resolution of the `getBattery` promise changes neither the published
state, the callback log, nor the listener set. -/
theorem bat_no_publish_after_teardown (s : BatHookState) (b : Option JSBattery)
    (r : GetBatteryResult) (h : s.mounted = false) :
    batStep s (.change b) = s ∧
    (batStep s (.resolve r)).published = s.published ∧
    (batStep s (.resolve r)).cbLog = s.cbLog ∧
    (batStep s (.resolve r)).listeners = s.listeners := by
  refine ⟨?_, ?_⟩
  · simp [batStep, updateBatteryStatus, h]
  · cases r with
    | rejected =>
      simp [batStep, initBattery, initBatteryTry, initBatteryCatch, h]
    | resolved bat =>
      simp [batStep, initBattery, initBatteryTry, updateBatteryStatus, h]

/-- C2 witness: a concrete torn-down state, late event and late resolution. -/
theorem bat_no_publish_after_teardown_witness :
    ({ mounted := false, published := defaultBatteryStatus, cbRef := some 7,
       cbLog := [], batteryRef := none, listeners := [],
       cleanupL := none } : BatHookState).mounted = false ∧
    batStep { mounted := false, published := defaultBatteryStatus, cbRef := some 7,
              cbLog := [], batteryRef := none, listeners := [], cleanupL := none }
        (.change (some ⟨.jsNum (.fin (1/2)), .jsBool true, .jsNum (.fin 60), .jsNum .inf⟩)) =
      { mounted := false, published := defaultBatteryStatus, cbRef := some 7,
        cbLog := [], batteryRef := none, listeners := [], cleanupL := none } :=
  ⟨rfl, (bat_no_publish_after_teardown
      { mounted := false, published := defaultBatteryStatus, cbRef := some 7,
        cbLog := [], batteryRef := none, listeners := [], cleanupL := none }
      (some ⟨.jsNum (.fin (1/2)), .jsBool true, .jsNum (.fin 60), .jsNum .inf⟩)
      .rejected rfl).1⟩

/-- C3: when accessing the platform battery object throws (or the resolved
object is malformed), the exception is caught — the try-block's error is
consumed by the catch, never re-raised — and for a live activation the
published state resolves to the unsupported-feature default
{level 1, charging false, chargingTime ∞, dischargingTime ∞,
supported false}; no callback fires on this path. -/
theorem bat_exception_caught_default (s : BatHookState) (h : s.mounted = true) :
    initBatteryTry GetBatteryResult.rejected s = Except.error "Invalid battery object" ∧
    initBattery GetBatteryResult.rejected s = initBatteryCatch s ∧
    (initBattery GetBatteryResult.rejected s).published = defaultBatteryStatus ∧
    (initBattery GetBatteryResult.rejected s).cbLog = s.cbLog ∧
    (initBattery GetBatteryResult.rejected s).listeners = s.listeners := by
  refine ⟨rfl, rfl, ?_, rfl, rfl⟩
  simp [initBattery, initBatteryTry, initBatteryCatch, h]

/-- C3 witness: the exception path evaluated on a concrete live state. -/
theorem bat_exception_caught_default_witness :
    (batInitState (some 3)).mounted = true ∧
    (initBattery GetBatteryResult.rejected (batInitState (some 3))).published =
      defaultBatteryStatus :=
  ⟨rfl, (bat_exception_caught_default (batInitState (some 3)) rfl).2.2.1⟩

/-- C9: if the activation is torn down before `getBattery` resolves, the
post-await `mounted` check returns before any `addEventListener` call:
the resolution registers no listener, publishes nothing and invokes no
callback — only `batteryRef.current` was assigned (that assignment
precedes the check in the source). -/
theorem bat_unmounted_resolve_no_listeners (s : BatHookState) (b : JSBattery)
    (h : s.mounted = false) :
    (batStep s (.resolve (.resolved b))).listeners = s.listeners ∧
    (batStep s (.resolve (.resolved b))).published = s.published ∧
    (batStep s (.resolve (.resolved b))).cbLog = s.cbLog ∧
    (batStep s (.resolve (.resolved b))).cleanupL = none ∧
    (batStep s (.resolve (.resolved b))).batteryRef = some b := by
  simp [batStep, initBattery, initBatteryTry, updateBatteryStatus, h]

/-- C9 witness: teardown-before-resolution on a concrete state. -/
theorem bat_unmounted_resolve_no_listeners_witness :
    (batStep { batInitState (some 5) with mounted := false }
        (.resolve (.resolved ⟨.jsNum (.fin (3/4)), .jsBool false, .jsNum .inf,
          .jsNum (.fin 3600)⟩))).listeners =
      ({ batInitState (some 5) with mounted := false } : BatHookState).listeners :=
  (bat_unmounted_resolve_no_listeners { batInitState (some 5) with mounted := false }
    ⟨.jsNum (.fin (3/4)), .jsBool false, .jsNum .inf, .jsNum (.fin 3600)⟩ rfl).1

/-- The execution environment as `useNetworkSpeed` probes it:
`typeof window === 'undefined'`, `'connection' in navigator`, and the
value of `navigator.connection || navigator.mozConnection ||
navigator.webkitConnection` (possibly still absent). -/
structure NetEnv where
  hasWindow : Bool
  hasConnectionProp : Bool
  conn : Option JSConnection
deriving DecidableEq, Repr

/-- The lazy `useState` initializer of `useNetworkSpeed` (part_002 lines
13-42): the safe default without window or connection property, otherwise
the optional-chained read of the connection object (absent object gives
the same default field by field). -/
def netInitialState (env : NetEnv) : NetworkSpeedInfo :=
  if !env.hasWindow || !env.hasConnectionProp then netDefault
  else
    match env.conn with
    | some c => readConn c
    | none => netDefault

/-- The listeners the `useNetworkSpeed` effect registers (part_002 lines
50-75): none without window/connection property or when the connection
object is absent; exactly one `change` listener otherwise. -/
def netEffectListeners (env : NetEnv) : List String :=
  if !env.hasWindow || !env.hasConnectionProp then []
  else
    match env.conn with
    | some _ => ["change"]
    | none => []

/-- The execution environment as the `useBattery` effect probes it
(useBattery.ts line 30): `typeof window === 'undefined'` and
`'getBattery' in navigator`. -/
structure BatEnv where
  hasWindow : Bool
  hasGetBattery : Bool
deriving DecidableEq, Repr

/-- Whether the `useBattery` effect proceeds past its support check; when
false the effect returns at once, so the `useState` default is never
replaced and nothing subscribes. -/
def batEffectRuns (env : BatEnv) : Bool :=
  env.hasWindow && env.hasGetBattery

/-- C4: in a non-interactive context (no window, or the feature absent
from navigator) each hook yields its documented safe default and
registers no listener: `useNetworkSpeed` returns
{effectiveType "unknown", downlink 0, rtt 0, saveData false} and
`useBattery` keeps {level 1, charging false, chargingTime ∞,
dischargingTime ∞, supported false} because its effect never runs. -/
theorem hooks_default_noninteractive (ne : NetEnv) (be : BatEnv)
    (hn : ne.hasWindow = false ∨ ne.hasConnectionProp = false)
    (hb : be.hasWindow = false ∨ be.hasGetBattery = false) :
    netInitialState ne = netDefault ∧
    netEffectListeners ne = [] ∧
    batEffectRuns be = false ∧
    (batInitState none).published = defaultBatteryStatus ∧
    (batInitState none).listeners = [] := by
  refine ⟨?_, ?_, ?_, rfl, rfl⟩
  · rcases hn with h | h <;> simp [netInitialState, h]
  · rcases hn with h | h <;> simp [netEffectListeners, h]
  · rcases hb with h | h <;> simp [batEffectRuns, h]

/-- C4 witness: a windowless environment for both hooks. -/
theorem hooks_default_noninteractive_witness :
    (({ hasWindow := false, hasConnectionProp := true, conn := none } : NetEnv).hasWindow
        = false ∨
      ({ hasWindow := false, hasConnectionProp := true, conn := none } : NetEnv).hasConnectionProp
        = false) ∧
    netInitialState { hasWindow := false, hasConnectionProp := true, conn := none } =
      netDefault :=
  ⟨Or.inl rfl,
    (hooks_default_noninteractive
      { hasWindow := false, hasConnectionProp := true, conn := none }
      { hasWindow := false, hasGetBattery := true }
      (Or.inl rfl) (Or.inl rfl)).1⟩

/-- C5: every listener registered during an activation is removed at
deactivation.  For `useBattery`, resolving on a live activation registers
exactly the four battery event names and teardown removes them all,
leaving none; for `useNetworkSpeed`, the effect registers exactly one
`change` listener when a connection object exists and its cleanup removal
leaves none. -/
theorem listeners_removed_on_teardown (cb : Option Nat) (b : JSBattery)
    (ne : NetEnv) (c : JSConnection) (hw : ne.hasWindow = true)
    (hp : ne.hasConnectionProp = true) (hc : ne.conn = some c) :
    (batStep (batInitState cb) (.resolve (.resolved b))).listeners =
      batteryEventNames ∧
    (batStep (batStep (batInitState cb) (.resolve (.resolved b))) .teardown).listeners
      = [] ∧
    netEffectListeners ne = ["change"] ∧
    removeListeners (netEffectListeners ne) ["change"] = [] := by
  have h1 : (batStep (batInitState cb) (.resolve (.resolved b))).listeners =
      batteryEventNames := by
    simp [batStep, initBattery, initBatteryTry, updateBatteryStatus, batInitState]
  have h2 : (batStep (batInitState cb) (.resolve (.resolved b))).cleanupL =
      some batteryEventNames := by
    simp [batStep, initBattery, initBatteryTry, updateBatteryStatus, batInitState]
  have hnet : netEffectListeners ne = ["change"] := by
    simp [netEffectListeners, hw, hp, hc]
  refine ⟨h1, ?_, hnet, ?_⟩
  · generalize hs : batStep (batInitState cb) (.resolve (.resolved b)) = s1 at h1 h2
    simp [batStep, h2, h1]
    decide
  · rw [hnet]
    decide

/-- C5 witness: a concrete battery and a concrete interactive environment. -/
theorem listeners_removed_on_teardown_witness :
    (batStep (batStep (batInitState (some 1))
        (.resolve (.resolved ⟨.jsNum (.fin (9/10)), .jsBool true, .jsNum (.fin 120),
          .jsNum .inf⟩))) .teardown).listeners = [] :=
  (listeners_removed_on_teardown (some 1)
    ⟨.jsNum (.fin (9/10)), .jsBool true, .jsNum (.fin 120), .jsNum .inf⟩
    { hasWindow := true, hasConnectionProp := true,
      conn := some ⟨some "4g", some (.fin 10), some (.fin 50), some false⟩ }
    ⟨some "4g", some (.fin 10), some (.fin 50), some false⟩
    rfl rfl rfl).2.1

/-- C10: a platform notification invokes the callback most recently
supplied through a render (held in `onChangeRef`, refreshed every
render), not the one in force when the listener was registered: after a
render supplying `cb`, a network `change` notification and a battery
event each log exactly one invocation of `cb` with the fresh snapshot,
whatever callback the state held before. -/
theorem latest_callback_invoked (conn : JSConnection) (sn : NetHookState)
    (sb : BatHookState) (cb : Nat) (b : JSBattery) (h : sb.mounted = true) :
    (netStep conn (netStep conn sn (.render (some cb))) .notify).cbLog =
      sn.cbLog ++ [(cb, readConn conn)] ∧
    (batStep (batStep sb (.render (some cb))) (.change (some b))).cbLog =
      sb.cbLog ++ [(cb, readBattery b)] := by
  constructor
  · simp [netStep, netNotify]
  · simp [batStep, updateBatteryStatus, h]

/-- C10 witness: the mount-time callback is id 0, a later render supplies
id 9; the notification after that render invokes id 9. -/
theorem latest_callback_invoked_witness :
    (batInitState (some 0)).mounted = true ∧
    (batStep (batStep (batInitState (some 0)) (.render (some 9)))
        (.change (some ⟨.jsNum (.fin (1/2)), .jsBool false, .jsNum .inf,
          .jsNum (.fin 7200)⟩))).cbLog =
      (batInitState (some 0)).cbLog ++
        [(9, readBattery ⟨.jsNum (.fin (1/2)), .jsBool false, .jsNum .inf,
          .jsNum (.fin 7200)⟩)] :=
  ⟨rfl, (latest_callback_invoked ⟨some "3g", some (.fin 2), some (.fin 200), some true⟩
    { published := netDefault, cbRef := some 0, cbLog := [] }
    (batInitState (some 0)) 9
    ⟨.jsNum (.fin (1/2)), .jsBool false, .jsNum .inf, .jsNum (.fin 7200)⟩ rfl).2⟩

/-- Modelled from the spec: the `useIdle` implementation file is not among
the sources (only its documentation is).  State of the idle detector:
the idle flag, time units since the last tracked event (the deadline
timer's progress), and the number of `onIdle` / `onActive` invocations
(the spec ties each transition to exactly one callback invocation). -/
structure IdleState where
  isIdle : Bool
  sinceActivity : Nat
  idleCount : Nat
  activeCount : Nat
deriving DecidableEq, Repr

/-- Modelled from the spec: at activation the detector is not idle and the
deadline timer starts from the activation instant; no callback has fired. -/
def idleInit : IdleState := ⟨false, 0, 0, 0⟩

/-- Modelled from the spec: one unit of time passes; `activity` says
whether a tracked event fired in it.  A tracked event resets the deadline
timer and, if the state was idle, transitions to active invoking
`onActive` once.  With no event, when the elapsed time reaches
`timeout` the deadline fires: the state becomes idle and `onIdle` is
invoked once; the deadline is not rescheduled while idle. -/
def idleStep (timeout : Nat) (s : IdleState) (activity : Bool) : IdleState :=
  if activity then
    if s.isIdle then ⟨false, 0, s.idleCount, s.activeCount + 1⟩
    else ⟨false, 0, s.idleCount, s.activeCount⟩
  else
    if s.sinceActivity + 1 ≥ timeout && !s.isIdle then
      ⟨true, s.sinceActivity + 1, s.idleCount + 1, s.activeCount⟩
    else
      { s with sinceActivity := s.sinceActivity + 1 }

/-- Passage of `k` units of time with no tracked event. -/
def idleElapse (timeout : Nat) (s : IdleState) : Nat → IdleState
  | 0 => s
  | k + 1 => idleElapse timeout (idleStep timeout s false) k

/-- Once idle, further event-free time changes only the elapsed counter:
no second idle transition, no callback. -/
theorem idleElapse_of_idle (timeout : Nat) :
    ∀ (k : Nat) (s : IdleState), s.isIdle = true →
      idleElapse timeout s k = { s with sinceActivity := s.sinceActivity + k } := by
  intro k
  induction k with
  | zero => intro s hs; rfl
  | succ k ih =>
    intro s hs
    have hstep : idleStep timeout s false = { s with sinceActivity := s.sinceActivity + 1 } := by
      simp [idleStep, hs]
    rw [idleElapse, hstep, ih { s with sinceActivity := s.sinceActivity + 1 } hs]
    simp
    omega

/-- From any live (non-idle) state whose timer has not yet reached the
deadline, an event-free stretch reaching the deadline makes the state
idle with exactly one more `onIdle` invocation and no `onActive`. -/
theorem idleElapse_reaches_idle (timeout : Nat) :
    ∀ (k : Nat) (s : IdleState), s.isIdle = false →
      s.sinceActivity < timeout → timeout ≤ s.sinceActivity + k →
      (idleElapse timeout s k).isIdle = true ∧
      (idleElapse timeout s k).idleCount = s.idleCount + 1 ∧
      (idleElapse timeout s k).activeCount = s.activeCount := by
  intro k
  induction k with
  | zero => intro s hs hlt hge; omega
  | succ k ih =>
    intro s hs hlt hge
    rw [idleElapse]
    by_cases hdl : s.sinceActivity + 1 ≥ timeout
    · have hstep : idleStep timeout s false =
          ⟨true, s.sinceActivity + 1, s.idleCount + 1, s.activeCount⟩ := by
        simp [idleStep, hs, hdl]
      rw [hstep, idleElapse_of_idle timeout k _ rfl]
      exact ⟨rfl, rfl, rfl⟩
    · have hstep : idleStep timeout s false =
          { s with sinceActivity := s.sinceActivity + 1 } := by
        simp [idleStep, hs, hdl]
      rw [hstep]
      have hrec := ih { s with sinceActivity := s.sinceActivity + 1 } hs
        (by simp; omega) (by simp; omega)
      simpa using hrec

/-- C6: with a positive `timeout`, if no tracked event fires for at least
`timeout` time units after activation, the idle flag becomes true with
`onIdle` invoked exactly once and `onActive` never; and a tracked event
in an idle state transitions to active, invokes `onActive` exactly once
and resets the deadline timer (so no further idle transition can occur
before another full timeout elapses). -/
theorem idle_timeout_once_then_active (timeout k : Nat) (s : IdleState)
    (ht : 0 < timeout) (hk : timeout ≤ k) (hs : s.isIdle = true) :
    (idleElapse timeout idleInit k).isIdle = true ∧
    (idleElapse timeout idleInit k).idleCount = 1 ∧
    (idleElapse timeout idleInit k).activeCount = 0 ∧
    idleStep timeout s true =
      ⟨false, 0, s.idleCount, s.activeCount + 1⟩ := by
  have h := idleElapse_reaches_idle timeout k idleInit rfl ht (by simpa [idleInit] using hk)
  exact ⟨h.1, h.2.1, h.2.2, by simp [idleStep, hs]⟩

/-- C6 witness: timeout 2, three event-free units, then activity while a
concrete idle state. -/
theorem idle_timeout_once_then_active_witness :
    0 < 2 ∧ 2 ≤ 3 ∧ (⟨true, 5, 1, 0⟩ : IdleState).isIdle = true ∧
    (idleElapse 2 idleInit 3).isIdle = true ∧
    (idleElapse 2 idleInit 3).idleCount = 1 :=
  ⟨by decide, by decide, rfl,
    (idle_timeout_once_then_active 2 3 ⟨true, 5, 1, 0⟩ (by decide) (by decide) rfl).1,
    (idle_timeout_once_then_active 2 3 ⟨true, 5, 1, 0⟩ (by decide) (by decide) rfl).2.1⟩

/-- Parsed coordinates; optional fields (altitude, altitude accuracy,
heading, speed) are explicit options per the spec's parsing contract. -/
structure GeoCoords where
  latitude : Rat
  longitude : Rat
  accuracy : Rat
  altitude : Option Rat
  altitudeAccuracy : Option Rat
  heading : Option Rat
  speed : Option Rat
deriving DecidableEq, Repr

/-- Modelled from the spec: the `useGeolocation` implementation file is not
among the sources (only its interface exports are).  The hook's published
state: `loading`, `error` (code and message) and `coordinates`. -/
structure GeoState where
  loading : Bool
  error : Option (Nat × String)
  coordinates : Option GeoCoords
deriving DecidableEq, Repr

/-- The disabled default {loading false, error none, coordinates none}. -/
def geoDisabled : GeoState :=
  { loading := false, error := none, coordinates := none }

/-- Events driving the geolocation accessor: the effect evaluating (render
with the current `enabled` gate), and the platform invoking the success
or error callback of an issued request. -/
inductive GeoEvent where
  | effectRun
  | posSuccess (c : GeoCoords)
  | posError (code : Nat) (msg : String)
deriving DecidableEq, Repr

/-- Modelled from the spec: the accessor's step, paired with the count of
platform position requests issued so far.  While `enabled` is false no
request is issued and the state is the disabled default; when enabled,
the effect issues a request and enters Loading, and a platform callback
is honoured only while a request is outstanding (Loading). -/
def geoStep (enabled : Bool) : GeoState × Nat → GeoEvent → GeoState × Nat
  | (_, n), .effectRun =>
    if enabled then ({ loading := true, error := none, coordinates := none }, n + 1)
    else (geoDisabled, n)
  | (s, n), .posSuccess c =>
    if enabled && s.loading then
      ({ loading := false, error := none, coordinates := some c }, n)
    else (s, n)
  | (s, n), .posError code msg =>
    if enabled && s.loading then
      ({ loading := false, error := some (code, msg), coordinates := none }, n)
    else (s, n)

/-- A whole run of the accessor from mount, with a fixed `enabled` gate. -/
def geoRun (enabled : Bool) (evs : List GeoEvent) : GeoState × Nat :=
  evs.foldl (geoStep enabled) (geoDisabled, 0)

/-- C7: with `enabled` false, no sequence of renders or stray platform
callbacks ever issues a position request or moves the state off the
disabled default {loading false, error none, coordinates none}. -/
theorem geo_disabled_no_request (evs : List GeoEvent) :
    geoRun false evs = (geoDisabled, 0) := by
  induction evs with
  | nil => rfl
  | cons e es ih =>
    have h : geoStep false (geoDisabled, 0) e = (geoDisabled, 0) := by
      cases e <;> simp [geoStep, geoDisabled]
    show List.foldl (geoStep false) (geoStep false (geoDisabled, 0) e) es = (geoDisabled, 0)
    rw [h]
    exact ih

/-- Pattern-prefix test on character lists. -/
def listHasPre : List Char → List Char → Bool
  | [], _ => true
  | _ :: _, [] => false
  | p :: ps, c :: cs => p == c && listHasPre ps cs

/-- Substring test: does the pattern occur anywhere in the text? -/
def listHasSub (pat : List Char) : List Char → Bool
  | [] => listHasPre pat []
  | c :: cs => listHasPre pat (c :: cs) || listHasSub pat cs

/-- Does the user-agent string contain the pattern? -/
def uaHas (ua pat : String) : Bool := listHasSub pat.toList ua.toList

/-- The device/OS flags returned by the classifier. -/
structure DeviceDetectResult where
  isMobile : Bool
  isTablet : Bool
  isDesktop : Bool
  isIOS : Bool
  isAndroid : Bool
  isWindows : Bool
  isMacOS : Bool
  isLinux : Bool
deriving DecidableEq, Repr

/-- Modelled from the spec: the mobile-phone patterns, checked first. -/
def mobileRule (ua : String) : Bool :=
  uaHas ua "iPhone" || uaHas ua "iPod" || (uaHas ua "Android" && uaHas ua "Mobile")

/-- Modelled from the spec: the tablet patterns, checked after the
mobile-phone patterns. -/
def tabletRule (ua : String) : Bool :=
  uaHas ua "iPad" || uaHas ua "Tablet" || uaHas ua "Android"

/-- Modelled from the spec: the device/OS classifier implementation file
is not among the sources (only its interface exports are).  A pure
function of the user-agent string; ties resolved by rule order —
mobile-phone patterns before tablet patterns before generic OS patterns
(an iPhone user agent contains "like Mac OS X", so the iOS rule must
shadow the macOS rule). -/
def detectDevice (ua : String) : DeviceDetectResult :=
  let m := mobileRule ua
  let t := !m && tabletRule ua
  let ios := uaHas ua "iPhone" || uaHas ua "iPad" || uaHas ua "iPod"
  let android := uaHas ua "Android"
  { isMobile := m,
    isTablet := t,
    isDesktop := !m && !t,
    isIOS := ios,
    isAndroid := android,
    isWindows := !ios && !android && uaHas ua "Windows",
    isMacOS := !ios && uaHas ua "Mac",
    isLinux := !android && uaHas ua "Linux" }

/-- A concrete iPhone user-agent string. -/
def iphoneUA : String :=
  "Mozilla/5.0 (iPhone; CPU iPhone OS 16_0 like Mac OS X) AppleWebKit/605.1.15 (KHTML, like Gecko) Version/16.0 Mobile/15E148 Safari/604.1"

/-- C8: the classifier resolves ties by rule order — whenever a
mobile-phone pattern matches, the tablet and desktop flags are forced
false — and on a concrete iPhone user-agent string it returns
{isMobile true, isTablet false, isDesktop false, isIOS true,
isAndroid false}. -/
theorem detectDevice_order_and_iphone (ua : String) (h : mobileRule ua = true) :
    (detectDevice ua).isMobile = true ∧
    (detectDevice ua).isTablet = false ∧
    (detectDevice ua).isDesktop = false ∧
    (detectDevice iphoneUA).isMobile = true ∧
    (detectDevice iphoneUA).isTablet = false ∧
    (detectDevice iphoneUA).isDesktop = false ∧
    (detectDevice iphoneUA).isIOS = true ∧
    (detectDevice iphoneUA).isAndroid = false := by
  refine ⟨?_, ?_, ?_, by decide, by decide, by decide, by decide, by decide⟩
  · simp [detectDevice, h]
  · simp [detectDevice, h]
  · simp [detectDevice, h]

/-- C8 witness: the iPhone user agent satisfies the mobile rule. -/
theorem detectDevice_order_and_iphone_witness :
    mobileRule iphoneUA = true ∧ (detectDevice iphoneUA).isMobile = true :=
  ⟨by decide, (detectDevice_order_and_iphone iphoneUA (by decide)).1⟩
